import Mathlib

/-!
Verification development for the GPTrans frame-fitting typesetting engine.

Shallow embedding of the core modules:
  * `app/shared/utils/chinese_typography.py` (kinsoku line-break rules,
    CJK classification, width estimation),
  * `app/shared/utils/fit_loop.py` (the iterative fit loop and the mock
    measurement oracle),
  * `app/backend/services/typesetting.py` (the reference measurement
    oracle, per-type default CSS, the page layout driver),
  * `app/backend/services/translation.py` (the mock translation provider's
    glossary application).

Strings are modelled as `List Char`; Python float arithmetic is modelled
with exact rationals, which agrees with the source on every comparison the
claims depend on (each adjusted typographic knob is clamped by `max`/`min`
against its bound before any comparison).  Python's `str.strip`,
`re.sub` over a whitespace class and `str.isspace` all treat the same set
of Unicode whitespace code points as whitespace - notably including
U+00A0 - and `isPySpace` models that set.
-/

/- Batteries marks the arithmetic of `Rat` `@[irreducible]`; the concrete
scenario runs below are settled by evaluation, so make it reducible again. -/
unseal Rat.mul Rat.add Rat.sub Rat.inv Rat.ofScientific

namespace GPTrans


/-- Python strings, modelled as lists of characters. -/
abbrev Str := List Char

/-- The code points Python treats as whitespace (`str.isspace`, `str.strip`
with no argument, and a whitespace class in a `re` pattern over `str`).
U+00A0 is a member. -/
def pySpaceChars : Str :=
  [' ', '\t', '\n', '\x0b', '\x0c', '\r', '\x1c', '\x1d', '\x1e', '\x1f',
   '\x85', '\xa0', '\u1680', '\u2000', '\u2001', '\u2002', '\u2003',
   '\u2004', '\u2005', '\u2006', '\u2007', '\u2008', '\u2009', '\u200a',
   '\u2028', '\u2029', '\u202f', '\u205f', '\u3000']

/-- Whether Python considers `c` whitespace. -/
def isPySpace (c : Char) : Bool := pySpaceChars.contains c

/-- Python `text.strip()`: drop whitespace from both ends. -/
def pyStrip (t : Str) : Str :=
  ((t.dropWhile isPySpace).reverse.dropWhile isPySpace).reverse

/-- Helper for run collapsing: `inRun` records whether the previous kept
character came from a run already replaced by `rep`. -/
def collapseAux (p : Char → Bool) (rep : Char) : Bool → Str → Str
  | _, [] => []
  | inRun, c :: cs =>
    if p c then
      if inRun then collapseAux p rep true cs
      else rep :: collapseAux p rep true cs
    else c :: collapseAux p rep false cs

/-- Python `re.sub` of one-or-more repetitions of a single-character class:
every maximal run of characters satisfying `p` becomes one `rep`. -/
def collapseRuns (p : Char → Bool) (rep : Char) (t : Str) : Str :=
  collapseAux p rep false t

/-- `NO_LINE_START_CHARS` of `app/shared/constants.py`, code point for code
point. -/
def NO_LINE_START_CHARS : Str :=
  "!%),.:;?]\x7d\xa2\xb0\xb7ˇˉ―‖\u0027\"…‰′″›℃∶、。〃〉》」』】〕〗〞︰︱︳﹐﹑﹒﹕﹖﹗﹚﹜﹞！），．：；？｜｝︶".toList

/-- `NO_LINE_END_CHARS` of `app/shared/constants.py`, code point for code
point. -/
def NO_LINE_END_CHARS : Str :=
  "([\x7b\xb7\u0027\"〈《「『【〔〖〝﹙﹛﹝（｛｟｠￠￡￥".toList

/-- U+00A0, the non-breaking space the rules insert. -/
def nbsp : Char := '\xa0'

/-- Python `t.replace(c, nbsp + c)` for a single character `c`. -/
def replaceBefore (t : Str) (c : Char) : Str :=
  t.flatMap fun x => if x = c then [nbsp, c] else [x]

/-- Python `t.replace(c, c + nbsp)` for a single character `c`. -/
def replaceAfter (t : Str) (c : Char) : Str :=
  t.flatMap fun x => if x = c then [c, nbsp] else [x]

/-- `ChineseTypography.apply_line_break_rules`: collapse newline runs to a
space, collapse whitespace runs of the stripped text to a space, then
insert U+00A0 before every `NO_LINE_START` character and after every
`NO_LINE_END` character. -/
def apply_line_break_rules (t : Str) : Str :=
  if (pyStrip t).isEmpty then t
  else
    let t1 := collapseRuns (fun c => c == '\n') ' ' t
    let t2 := collapseRuns isPySpace ' ' (pyStrip t1)
    let t3 := NO_LINE_START_CHARS.foldl replaceBefore t2
    NO_LINE_END_CHARS.foldl replaceAfter t3

/-- `ChineseTypography.is_cjk_character`: the eight code-point ranges. -/
def is_cjk_character (c : Char) : Bool :=
  let o := c.toNat
  decide ((0x4E00 ≤ o ∧ o ≤ 0x9FFF) ∨ (0x3400 ≤ o ∧ o ≤ 0x4DBF) ∨
    (0x20000 ≤ o ∧ o ≤ 0x2A6DF) ∨ (0x2A700 ≤ o ∧ o ≤ 0x2B73F) ∨
    (0x2B740 ≤ o ∧ o ≤ 0x2B81F) ∨ (0x2B820 ≤ o ∧ o ≤ 0x2CEAF) ∨
    (0x3040 ≤ o ∧ o ≤ 0x309F) ∨ (0x30A0 ≤ o ∧ o ≤ 0x30FF))

/-- An ASCII character in the sense of `count_characters`: code point below
128. -/
def is_ascii_char (c : Char) : Bool := decide (c.toNat < 128)

/-- `ChineseTypography.count_characters`: `(total, cjk, ascii)`. -/
def count_characters (t : Str) : Nat × Nat × Nat :=
  (t.length, t.countP is_cjk_character, t.countP is_ascii_char)

/-- `ChineseTypography.estimate_text_width`: class-weighted width in px. -/
def estimate_text_width (t : Str) (font_size cjk_width_ratio : ℚ) : ℚ :=
  let total := (count_characters t).1
  let cjk := (count_characters t).2.1
  let ascii_count := (count_characters t).2.2
  (cjk : ℚ) * font_size * cjk_width_ratio +
    (ascii_count : ℚ) * font_size * 0.55 +
    ((total : ℚ) - (cjk : ℚ) - (ascii_count : ℚ)) * font_size * 0.6


/-! ### Fit loop (`app/shared/utils/fit_loop.py`) -/

/-- The CSS dict the fit loop threads through its iterations.  The source
keeps it as a dict of strings; line-height and letter-spacing are stored
here as the rational the string denotes, font-weight and font-stretch as
their literal string values. -/
structure CssProps where
  lineHeight : ℚ
  letterSpacing : ℚ
  fontWeight : String
  fontStretch : String
deriving DecidableEq, Repr

/-- `FitLoopConfig` of `app/shared/schemas.py`. -/
structure FitLoopConfig where
  initial_line_height : ℚ
  initial_letter_spacing : ℚ
  min_letter_spacing : ℚ
  min_line_height : ℚ
  max_line_height : ℚ
  max_letter_spacing : ℚ
  overflow_tolerance : ℚ
  concise_threshold : ℚ
deriving DecidableEq, Repr

/-- The schema defaults: `FitLoopConfig()`. -/
def defaultFitLoopConfig : FitLoopConfig :=
  { initial_line_height := 1.5
    initial_letter_spacing := 0.0
    min_letter_spacing := -0.02
    min_line_height := 1.45
    max_line_height := 1.6
    max_letter_spacing := 0.01
    overflow_tolerance := 0.02
    concise_threshold := 0.9 }

/-- `FitResult` of `fit_loop.py`. -/
structure FitResult where
  fits : Bool
  overflow_ratio : ℚ
  density_ratio : ℚ
  css_properties : CssProps
  iterations : Nat
  final_content : Str
deriving DecidableEq, Repr

/-- The frame dimensions the fit loop reads (`frame.width`, `frame.height`). -/
structure FrameDims where
  width : ℚ
  height : ℚ
deriving DecidableEq, Repr

/-- A measurement oracle: content and CSS to `(width, height)`. -/
abbrev MeasureFunc := Str → CssProps → ℚ × ℚ

/-- The CSS dict `fit_text_to_frame` builds before its loop. -/
def initialCss (cfg : FitLoopConfig) : CssProps :=
  { lineHeight := cfg.initial_line_height
    letterSpacing := cfg.initial_letter_spacing
    fontWeight := "normal"
    fontStretch := "normal" }

/-- `FitLoop._compress_text`: `some` of the updated dict when the step
fired, `none` when it did not. -/
def compressText (cfg : FitLoopConfig) (css : CssProps) (iteration : Nat) :
    Option CssProps :=
  if iteration = 0 then
    if css.letterSpacing > cfg.min_letter_spacing then
      some { css with
        letterSpacing := max cfg.min_letter_spacing (css.letterSpacing - 0.01) }
    else none
  else if iteration = 1 then
    if css.lineHeight > cfg.min_line_height then
      some { css with
        lineHeight := max cfg.min_line_height (css.lineHeight - 0.05) }
    else none
  else if iteration = 2 then
    if css.fontStretch = "normal" then
      some { css with fontStretch := "condensed" }
    else none
  else if iteration = 3 then
    if css.fontWeight = "normal" then
      some { css with fontWeight := "300" }
    else none
  else none

/-- `FitLoop._expand_text`. -/
def expandText (cfg : FitLoopConfig) (css : CssProps) (iteration : Nat) :
    CssProps :=
  if iteration = 0 then
    if css.lineHeight < cfg.max_line_height then
      { css with lineHeight := min cfg.max_line_height (css.lineHeight + 0.1) }
    else css
  else if iteration = 1 then
    if css.letterSpacing < cfg.max_letter_spacing then
      { css with
        letterSpacing := min cfg.max_letter_spacing (css.letterSpacing + 0.005) }
    else css
  else css

/-- `text_height / frame.height if frame.height > 0 else 0`. -/
def overflowOf (frame : FrameDims) (measuredHeight : ℚ) : ℚ :=
  if frame.height > 0 then measuredHeight / frame.height else 0

/-- `text_width / frame.width if frame.width > 0 else 0`. -/
def densityOf (frame : FrameDims) (measuredWidth : ℚ) : ℚ :=
  if frame.width > 0 then measuredWidth / frame.width else 0

/-- The code after the loop of `fit_text_to_frame`: re-measure once and
return with `iterations = 10` and `fits = overflow_ratio <= 1.1`.  The
returned triple also carries the running count of measurement calls and
`false` for "the loop did not accept". -/
def fitFinal (frame : FrameDims) (measure : MeasureFunc) (content : Str)
    (css : CssProps) (calls : Nat) : FitResult × Nat × Bool :=
  ({ fits := decide (overflowOf frame (measure content css).2 ≤ 1.1)
     overflow_ratio := overflowOf frame (measure content css).2
     density_ratio := densityOf frame (measure content css).1
     css_properties := css
     iterations := 10
     final_content := content }, calls + 1, false)

/-- One run of the `for iteration in range(10)` loop of
`FitLoop.fit_text_to_frame`, from loop index `i` on, with `fuel = 10 - i`
iterations left.  `calls` counts oracle invocations made so far (the
source calls `measure_func` once per loop iteration; the value is pure, so
writing the call several times below does not change the count); the
`Bool` of the result is `true` exactly when the loop returned through its
accept branch. -/
def fitAux (cfg : FitLoopConfig) (frame : FrameDims) (measure : MeasureFunc)
    (shorten : Option (Str → Str)) (original : Str) :
    Nat → Nat → Str → CssProps → Nat → FitResult × Nat × Bool
  | 0, _, content, css, calls => fitFinal frame measure content css calls
  | fuel + 1, i, content, css, calls =>
    if overflowOf frame (measure content css).2 ≤ 1 + cfg.overflow_tolerance then
      if densityOf frame (measure content css).1 ≥ 0.4 then
        ({ fits := true
           overflow_ratio := overflowOf frame (measure content css).2
           density_ratio := densityOf frame (measure content css).1
           css_properties := css
           iterations := i + 1
           final_content := content }, calls + 1, true)
      else
        fitAux cfg frame measure shorten original fuel (i + 1) content
          (expandText cfg css i) (calls + 1)
    else
      match compressText cfg css i with
      | some css2 =>
        fitAux cfg frame measure shorten original fuel (i + 1) content css2
          (calls + 1)
      | none =>
        shorten.elim (fitFinal frame measure content css (calls + 1)) fun f =>
          if i < 3 then
            if (f original).length < content.length then
              fitAux cfg frame measure shorten original fuel (i + 1)
                (f original) (initialCss cfg) (calls + 1)
            else fitFinal frame measure content css (calls + 1)
          else fitFinal frame measure content css (calls + 1)
termination_by structural fuel => fuel

/-- `FitLoop.fit_text_to_frame` with its instrumentation: the result, the
number of measurement-oracle calls, and whether the loop accepted. -/
def fitRun (cfg : FitLoopConfig) (frame : FrameDims) (measure : MeasureFunc)
    (shorten : Option (Str → Str)) (content : Str) : FitResult × Nat × Bool :=
  fitAux cfg frame measure shorten content 10 0 content (initialCss cfg) 0

/-- `FitLoop.fit_text_to_frame`. -/
def fit_text_to_frame (cfg : FitLoopConfig) (frame : FrameDims)
    (measure : MeasureFunc) (shorten : Option (Str → Str)) (content : Str) :
    FitResult :=
  (fitRun cfg frame measure shorten content).1

/-- Python `ln.split('\n')`: split a string at every newline, keeping
empty segments, never returning an empty list. -/
def splitOnNl : Str → List Str
  | [] => [[]]
  | c :: cs =>
    if c = '\n' then [] :: splitOnNl cs
    else
      match splitOnNl cs with
      | [] => [[c]]
      | l :: ls => (c :: l) :: ls

/-- `MockMeasureFunc.__call__` of `fit_loop.py` (defaults
`char_width=16`, `char_height=24`). -/
def mockMeasure (char_width char_height : ℚ) (content : Str)
    (css : CssProps) : ℚ × ℚ :=
  let lines := splitOnNl content
  let maxLineLength := (lines.map List.length).foldl max 0
  let width := (maxLineLength : ℚ) * char_width * (1 + css.letterSpacing)
  let height := (lines.length : ℚ) * char_height * css.lineHeight
  (if css.fontStretch = "condensed" then width * 0.85 else width, height)


/-! ### Typesetting engine (`app/backend/services/typesetting.py`) -/

/-- The measurement function `TypesettingEngine._create_measure_function`
builds.  The CSS dict the fit loop passes carries no `font-size` key, so
`_parse_font_size(css_props.get("font-size", "16px"))` always yields 16
here; line-height and letter-spacing come from the dict. -/
def measure_text (content : Str) (css : CssProps) : ℚ × ℚ :=
  let font_size : ℚ := 16
  let estimated_width :=
    estimate_text_width content font_size (1 + css.letterSpacing)
  let lines := splitOnNl content
  if lines.isEmpty then (0, 0)
  else
    let line_count := lines.countP fun line => !(pyStrip line).isEmpty
    (estimated_width, (line_count : ℚ) * font_size * css.lineHeight)

/-- Errors the Python runtime can raise in the layout driver: a pydantic
`ValidationError` from a model constructor, or whatever exception
`_typeset_block` raised. -/
inductive PyError where
  | validationError
  | blockError
deriving DecidableEq, Repr

/-- A value passed for `TypesetFrame.css_properties`: either a dict (what
the field's type `Dict[str, str]` wants) or a plain string (what the
fallback path passes). -/
inductive CssValue where
  | dict (d : List (String × String))
  | str (s : String)
deriving DecidableEq, Repr

/-- pydantic validation of the `css_properties: Dict[str, str]` field: a
dict passes, a plain string raises `ValidationError`. -/
def validateCssDict : CssValue → Except PyError (List (String × String))
  | .dict d => .ok d
  | .str _ => .error .validationError

/-- `TypesetFrame` of `app/shared/schemas.py` (the fields the driver
uses). -/
structure TypesetFrame where
  block_id : Nat
  x : ℚ
  y : ℚ
  width : ℚ
  height : ℚ
  content : Str
  css_properties : List (String × String)
deriving DecidableEq, Repr

/-- Constructing a `TypesetFrame(...)`: pydantic validates the
`css_properties` argument. -/
def mkTypesetFrame (block_id : Nat) (x y width height : ℚ) (content : Str)
    (css : CssValue) : Except PyError TypesetFrame := do
  let d ← validateCssDict css
  .ok { block_id := block_id, x := x, y := y, width := width,
        height := height, content := content, css_properties := d }

/-- A block as the driver reads it (`models.py` columns it touches). -/
structure Block where
  id : Nat
  bbox_x : ℚ
  bbox_y : ℚ
  bbox_w : ℚ
  bbox_h : ℚ
  text_source : Str
  text_translated : Option Str
deriving DecidableEq, Repr

/-- Python truthiness of `block.text_translated`: `None` and `""` are
falsy. -/
def pyTruthy : Option Str → Bool
  | none => false
  | some s => !s.isEmpty

/-- Python `a or b` for string `a` with default `b`. -/
def pyOr : Option Str → Str → Str
  | none, b => b
  | some s, b => if s.isEmpty then b else s

/-- `create_css_for_chinese_text` of `chinese_typography.py`: the numeric
parameters arrive as the string Python's `str()` / f-string would have
rendered. -/
def create_css_for_chinese_text (font_family font_size line_height
    letter_spacing text_align : String) : String :=
  let css_props : List (String × String) :=
    [("font-family", "\"" ++ font_family ++ "\", serif"),
     ("font-size", font_size),
     ("line-height", line_height),
     ("letter-spacing", letter_spacing ++ "em"),
     ("text-align", text_align),
     ("text-justify", "inter-ideograph"),
     ("line-break", "strict"),
     ("word-break", "keep-all"),
     ("hyphens", "none"),
     ("orphans", "2"),
     ("widows", "2"),
     ("text-indent", "0"),
     ("margin", "0"),
     ("padding", "0")]
  String.intercalate "; " (css_props.map fun p => p.1 ++ ": " ++ p.2)

/-- `create_css_for_chinese_text()` with every default argument. -/
def createCssDefaults : String :=
  create_css_for_chinese_text "Noto Serif CJK SC" "16px" "1.5" "0.0" "justify"

/-- `TypesettingEngine._typeset_page_blocks`: skip falsy translations, keep
the frame `_typeset_block` returns, and on a per-block exception build the
fallback frame - whose construction passes the CSS *string*
`create_css_for_chinese_text()` to the dict-typed `css_properties` field.
An uncaught exception anywhere aborts the whole call, which the `Except`
monad models. -/
def typesetPageBlocks (typesetBlock : Block → Except PyError TypesetFrame) :
    List Block → Except PyError (List TypesetFrame)
  | [] => .ok []
  | b :: bs =>
    if pyTruthy b.text_translated then
      match typesetBlock b with
      | .ok frame => do
        let rest ← typesetPageBlocks typesetBlock bs
        .ok (frame :: rest)
      | .error _ => do
        let fallback ← mkTypesetFrame b.id b.bbox_x b.bbox_y b.bbox_w b.bbox_h
          (pyOr b.text_translated b.text_source) (CssValue.str createCssDefaults)
        let rest ← typesetPageBlocks typesetBlock bs
        .ok (fallback :: rest)
    else typesetPageBlocks typesetBlock bs

/-- Python `dict[k] = v` keeping insertion order: overwrite in place or
append. -/
def dictSet : List (String × String) → String → String →
    List (String × String)
  | [], k, v => [(k, v)]
  | (k0, v0) :: rest, k, v =>
    if k0 = k then (k, v) :: rest else (k0, v0) :: dictSet rest k v

/-- Python `d.update(kvs)` for an ordered list of pairs. -/
def dictUpdate (d : List (String × String)) (kvs : List (String × String)) :
    List (String × String) :=
  kvs.foldl (fun acc kv => dictSet acc kv.1 kv.2) d

/-- The `base_css` dict of
`TypesettingEngine._get_default_css_for_block_type`. -/
def base_css : List (String × String) :=
  [("font-family", "\"Noto Serif CJK SC\", serif"),
   ("text-align", "justify"),
   ("text-justify", "inter-ideograph"),
   ("line-break", "strict"),
   ("word-break", "keep-all"),
   ("hyphens", "none"),
   ("margin", "0"),
   ("padding", "0")]

/-- `TypesettingEngine._get_default_css_for_block_type`. -/
def get_default_css_for_block_type (block_type : String) :
    List (String × String) :=
  if block_type = "heading" then
    dictUpdate base_css
      [("font-size", "20px"), ("font-weight", "bold"), ("line-height", "1.3"),
       ("text-align", "center"), ("margin-bottom", "16px")]
  else if block_type = "paragraph" then
    dictUpdate base_css
      [("font-size", "16px"), ("line-height", "1.6"), ("text-indent", "2em"),
       ("margin-bottom", "12px")]
  else if block_type = "caption" then
    dictUpdate base_css
      [("font-size", "14px"), ("line-height", "1.4"), ("text-align", "center"),
       ("font-style", "italic"), ("color", "#666")]
  else if block_type = "footnote" then
    dictUpdate base_css
      [("font-size", "12px"), ("line-height", "1.3"), ("text-indent", "1em"),
       ("color", "#555")]
  else if block_type = "figure" then
    dictUpdate base_css [("text-align", "center"), ("margin", "16px 0")]
  else if block_type = "page-number" then
    dictUpdate base_css
      [("font-size", "12px"), ("text-align", "center"), ("color", "#888")]
  else base_css

/-! ### Mock translation provider (`app/backend/services/translation.py`) -/

/-- `GlossaryTerm` (the fields `translate_text` reads). -/
structure GlossaryTerm where
  src : Str
  tgt : Str
  case_sensitive : Bool
deriving DecidableEq, Repr

/-- ASCII lowering; Python's `str.lower()` agrees with it on every string
the glossary claims evaluate (ASCII plus CJK, which has no case). -/
def toLowerAscii (c : Char) : Char :=
  if 'A' ≤ c ∧ c ≤ 'Z' then Char.ofNat (c.toNat + 32) else c

/-- `s.lower()` under the ASCII model. -/
def lowerStr (t : Str) : Str := t.map toLowerAscii

/-- Python `t.replace(pat, rep)` for a non-empty `pat`: leftmost,
non-overlapping.  `fuel` only drives structural recursion; with
`fuel = t.length` the scan is complete. -/
def replaceStrAux (pat rep : Str) : Nat → Str → Str
  | 0, t => t
  | _, [] => []
  | fuel + 1, c :: cs =>
    if pat.isPrefixOf (c :: cs) then
      rep ++ replaceStrAux pat rep fuel (cs.drop (pat.length - 1))
    else c :: replaceStrAux pat rep fuel cs

/-- Python `t.replace(pat, rep)`. -/
def pyReplace (t pat rep : Str) : Str := replaceStrAux pat rep t.length t

/-- `re.compile(re.escape(pat), re.IGNORECASE).sub(rep, t)` for a
non-empty literal `pat`: leftmost, non-overlapping, case-insensitive. -/
def replaceCIAux (pat rep : Str) : Nat → Str → Str
  | 0, t => t
  | _, [] => []
  | fuel + 1, c :: cs =>
    if (lowerStr pat).isPrefixOf (lowerStr (c :: cs)) then
      rep ++ replaceCIAux pat rep fuel (cs.drop (pat.length - 1))
    else c :: replaceCIAux pat rep fuel cs

/-- Case-insensitive literal substitution over all of `t`. -/
def pyReplaceCI (t pat rep : Str) : Str := replaceCIAux pat rep t.length t

/-- Python `pat in t` (substring test). -/
def containsSub (pat : Str) : Str → Bool
  | [] => pat.isEmpty
  | c :: cs => pat.isPrefixOf (c :: cs) || containsSub pat cs

/-- One pass of the glossary loop body of
`MockTranslationProvider.translate_text`. -/
def applyGlossaryTerm (term : GlossaryTerm) (t : Str) : Str :=
  if term.case_sensitive then pyReplace t term.src term.tgt
  else pyReplaceCI t term.src term.tgt

/-- The `for term in glossary` loop: terms in list order, each scanning the
text already substituted by the earlier ones. -/
def applyGlossary (glossary : List GlossaryTerm) (t : Str) : Str :=
  glossary.foldl (fun tr term => applyGlossaryTerm term tr) t

/-- `self.translations["de"]` of `MockTranslationProvider`. -/
def translations_de : List (Str × Str) :=
  [("Die Entwicklung der modernen Typografie".toList, "现代字体设计的发展".toList),
   ("Die Geschichte der Typografie".toList, "字体排印史".toList),
   ("Johannes Gutenberg".toList, "约翰内斯·古腾堡".toList),
   ("beweglichen Lettern".toList, "活字印刷".toList),
   ("Renaissance".toList, "文艺复兴".toList),
   ("humanistische Minuskel".toList, "人文主义小写字母".toList),
   ("Gutenberg-Bible".toList, "古腾堡圣经".toList),
   ("Mainz".toList, "美因茨".toList)]

/-- `self.translations["sv"]` of `MockTranslationProvider`. -/
def translations_sv : List (Str × Str) :=
  [("Typografins utveckling".toList, "字体设计的发展".toList),
   ("Modern design".toList, "现代设计".toList),
   ("Tryckkonst".toList, "印刷艺术".toList)]

/-- `self.translations` lookup by source language. -/
def translationsFor (lang : String) : Option (List (Str × Str)) :=
  if lang = "de" then some translations_de
  else if lang = "sv" then some translations_sv
  else none

/-- The built-in-translation loop: `if src.lower() in translated.lower()`
then substitute case-insensitively. -/
def applyBuiltin (tbl : List (Str × Str)) (t : Str) : Str :=
  tbl.foldl
    (fun tr p =>
      if containsSub (lowerStr p.1) (lowerStr tr) then pyReplaceCI tr p.1 p.2
      else tr)
    t

/-- `MockTranslationProvider.translate_text`.  The language-specific
helper passes `_mock_german_to_chinese`, `_mock_swedish_to_chinese` and
`_make_concise` are taken as the parameters `germanPass`, `swedishPass`
and `makeConcise`; every claim about this function is evaluated at a
source language for which none of the three runs. -/
def translate_text (germanPass swedishPass makeConcise : Str → Str)
    (text : Str) (source_lang target_lang : String)
    (glossary : List GlossaryTerm) (length_policy : String) : Str :=
  let translated := applyGlossary glossary text
  let translated :=
    match translationsFor source_lang with
    | some tbl => applyBuiltin tbl translated
    | none => translated
  let translated :=
    if source_lang = "de" ∧ target_lang = "zh-CN" then germanPass translated
    else if source_lang = "sv" ∧ target_lang = "zh-CN" then
      swedishPass translated
    else translated
  if length_policy = "concise" then makeConcise translated else translated


/-! ### Definitions used by the claim statements -/

/-- The style-bounds invariant of the spec: line-height and letter-spacing
within the configured bounds. -/
def CssInBounds (cfg : FitLoopConfig) (css : CssProps) : Prop :=
  cfg.min_line_height ≤ css.lineHeight ∧
    css.lineHeight ≤ cfg.max_line_height ∧
    cfg.min_letter_spacing ≤ css.letterSpacing ∧
    css.letterSpacing ≤ cfg.max_letter_spacing

instance (cfg : FitLoopConfig) (css : CssProps) :
    Decidable (CssInBounds cfg css) := by
  unfold CssInBounds; infer_instance

/-- `"这是一段很长的中文文本" * 5`: the content of the "full ladder" scenario. -/
def c3_content : Str :=
  ("这是一段很长的中文文本这是一段很长的中文文本这是一段很长的中文文本" ++
    "这是一段很长的中文文本这是一段很长的中文文本").toList

/-- The scenario's shortener, `text[:int(len(text) * 0.9)]`. -/
def c3_shorten (t : Str) : Str := t.take (9 * t.length / 10)

/-- The "full ladder then shortening" scenario run: frame 100 x 40, the
mock oracle with its 16 x 24 defaults, the 0.9 shortener. -/
def c3_result : FitResult :=
  fit_text_to_frame defaultFitLoopConfig ⟨100, 40⟩ (mockMeasure 16 24)
    (some c3_shorten) c3_content

/-- The "short fits trivially" scenario run: frame 400 x 200, content
`"中文测试"`, the reference oracle, no shortener. -/
def c4_result : FitResult :=
  fit_text_to_frame defaultFitLoopConfig ⟨400, 200⟩ measure_text none
    "中文测试".toList

/-- The ordered glossary of the priority scenario. -/
def c6_glossary : List GlossaryTerm :=
  [⟨"Renaissance".toList, "文艺复兴".toList, true⟩,
   ⟨"renaissance".toList, "复兴".toList, true⟩]

/-- The backend on `"In the Renaissance period"` (source language "en":
no built-in table and no language-specific pass runs, so the three helper
parameters are irrelevant and instantiated with `id`). -/
def c6_result1 : Str :=
  translate_text id id id "In the Renaissance period".toList "en" "zh-CN"
    c6_glossary "normal"

/-- The backend on `"In the renaissance period"`. -/
def c6_result2 : Str :=
  translate_text id id id "In the renaissance period".toList "en" "zh-CN"
    c6_glossary "normal"

/-- A `_typeset_block` behaviour that raises on every block. -/
def errTypeset : Block → Except PyError TypesetFrame :=
  fun _ => .error .blockError

/-- A block whose translation is the empty string. -/
def blockEmptyTranslation : Block := ⟨1, 0, 0, 10, 10, "src".toList, some []⟩

/-- A block with a non-empty translation (whose typesetting the driver
will be made to fail). -/
def blockWithTranslation : Block := ⟨2, 5, 6, 10, 10, "src".toList, some "译".toList⟩

/-- Non-empty-line counting in one left-to-right pass: `cur` records
whether the line being read has already shown a non-whitespace character,
`acc` the finished non-empty lines.  Evaluation-order reformulation of
`len([line for line in content.split('\n') if line.strip()])`, used to
prove that the count is monotone under appending. -/
def nelAux : Bool → Nat → Str → Nat
  | cur, acc, [] => acc + cur.toNat
  | cur, acc, c :: cs =>
    if c = '\n' then nelAux false (acc + cur.toNat) cs
    else nelAux (cur || !(isPySpace c)) acc cs

/-- Whether a line survives `if line.strip()`. -/
def lineKept (line : Str) : Bool := line.any fun c => !(isPySpace c)

/-- Whether the first line of `l` is non-empty after stripping. -/
def headNW (l : Str) : Bool := lineKept ((splitOnNl l).headD [])

/-- The kept-line count of all lines after the first. -/
def tailNW (l : Str) : Nat := ((splitOnNl l).tail).countP lineKept

/-- `len([line for line in l.split('\n') if line.strip()])`, with
`line.strip()` truthiness expressed through `lineKept`. -/
def countNW (l : Str) : Nat := (splitOnNl l).countP lineKept


/-! ### Claim C1: kinsoku insertion and (non-)idempotence -/

set_option maxRecDepth 10000 in
/-- C1 counterexample: `apply_line_break_rules` is *not* idempotent.  On
`"测试，句号。"` the second application differs from the first: the whitespace
collapse of the second pass rewrites each inserted U+00A0 (Python treats
it as whitespace) to U+0020 and then inserts a fresh U+00A0. -/
theorem c1_counterexample :
    apply_line_break_rules (apply_line_break_rules "测试，句号。".toList) ≠
      apply_line_break_rules "测试，句号。".toList := by decide

set_option maxRecDepth 10000 in
/-- C1 (amended): one application of `apply_line_break_rules` to
`"测试，句号。"` yields `"测试 ，句号 。"` exactly as the claim states,
but re-application yields `"测试  ，句号  。"` (each U+00A0 collapses
to U+0020 before a fresh U+00A0 is inserted); from the second application
onward the string is a fixed point. -/
theorem c1_kinsoku_insertion :
    apply_line_break_rules "测试，句号。".toList = "测试\xa0，句号\xa0。".toList ∧
    apply_line_break_rules "测试\xa0，句号\xa0。".toList =
      "测试 \xa0，句号 \xa0。".toList ∧
    apply_line_break_rules "测试 \xa0，句号 \xa0。".toList =
      "测试 \xa0，句号 \xa0。".toList := by
  refine ⟨?_, ?_, ?_⟩ <;> decide

/-! ### Claim C4: the "short fits trivially" scenario -/

set_option maxRecDepth 40000 in
/-- C4 counterexample: on frame 400 x 200 with content `"中文测试"` and the
reference oracle, the loop does *not* accept at iteration 1 with the style
unchanged: the measured density 64/400 = 0.16 is below the 0.4 threshold,
so the loop expands for all ten iterations and returns `iterations = 10`
with an expanded style. -/
theorem c4_counterexample :
    c4_result.iterations = 10 ∧
    c4_result.css_properties ≠ initialCss defaultFitLoopConfig := by decide

set_option maxRecDepth 40000 in
/-- C4 (amended): the scenario returns `fits = true` (as claimed) but with
`iterations = 10`, line-height expanded to 1.6 and letter-spacing to
0.005em, content unchanged; overflow 25.6/200 and density 64.32/400. -/
theorem c4_short_text_expands :
    c4_result =
      { fits := true, overflow_ratio := 16/125, density_ratio := 201/1250,
        css_properties :=
          { lineHeight := 8/5, letterSpacing := 1/200,
            fontWeight := "normal", fontStretch := "normal" },
        iterations := 10, final_content := "中文测试".toList } := by decide

/-! ### Claim C6: glossary priority -/

set_option maxRecDepth 10000 in
/-- C6 counterexample: the first result is `"In the 文艺复兴 period"`, which
*does* contain `"复兴"` (as a substring of `"文艺复兴"`), so "contains 文艺复兴
and not 复兴" is false as literally stated. -/
theorem c6_counterexample :
    c6_result1 = "In the 文艺复兴 period".toList ∧
    containsSub "复兴".toList c6_result1 = true := by
  refine ⟨by decide, by decide⟩

set_option maxRecDepth 10000 in
/-- C6 (amended): on `"In the Renaissance period"` the backend yields
exactly `"In the 文艺复兴 period"` - the first (earlier) term fired and the
second did not, though `"复兴"` still occurs inside `"文艺复兴"`; on
`"In the renaissance period"` it yields exactly `"In the 复兴 period"`,
containing `"复兴"` and not `"文艺复兴"`.  The last conjunct is the order of
application: each later term scans the text already substituted by the
earlier ones. -/
theorem c6_glossary_priority :
    c6_result1 = "In the 文艺复兴 period".toList ∧
    c6_result2 = "In the 复兴 period".toList ∧
    containsSub "文艺复兴".toList c6_result1 = true ∧
    containsSub "文艺复兴".toList c6_result2 = false ∧
    containsSub "复兴".toList c6_result2 = true ∧
    ∀ (term : GlossaryTerm) (rest : List GlossaryTerm) (t : Str),
      applyGlossary (term :: rest) t =
        applyGlossary rest (applyGlossaryTerm term t) := by
  refine ⟨by decide, by decide, by decide, by decide, by decide,
    fun term rest t => rfl⟩

/-! ### Claim C7: skipped and empty translations -/

/-- C7 (amended): a block whose translation is missing *or empty* is
skipped - no frame of any kind is emitted for it (`if not
block.text_translated: continue` treats `None` and `""` alike). -/
theorem c7_skip_untranslated
    (typesetBlock : Block → Except PyError TypesetFrame)
    (b : Block) (bs : List Block)
    (h : b.text_translated = none ∨ b.text_translated = some []) :
    typesetPageBlocks typesetBlock (b :: bs) =
      typesetPageBlocks typesetBlock bs := by
  rcases h with h | h <;> simp [typesetPageBlocks, pyTruthy, h]

/-- C7 witness: the skip theorem applied to a concrete one-block page whose
translation is the empty string. -/
theorem c7_skip_witness :
    typesetPageBlocks errTypeset [blockEmptyTranslation] = Except.ok [] :=
  (c7_skip_untranslated errTypeset blockEmptyTranslation [] (Or.inr rfl)).trans rfl

/-- C7 counterexample: a block with the empty-string translation produces
*zero* frames, not the "empty frame" the claim promises. -/
theorem c7_counterexample :
    (typesetPageBlocks errTypeset [blockEmptyTranslation]).map List.length =
      Except.ok 0 := rfl

/-! ### Claim C8: the fallback frame aborts the page -/

/-- A `_typeset_block` that succeeds on every block except
`blockWithTranslation` (id 2), producing some well-formed frame. -/
def mixedTypeset : Block → Except PyError TypesetFrame := fun b =>
  if b.id = blockWithTranslation.id then .error .blockError
  else .ok { block_id := b.id, x := b.bbox_x, y := b.bbox_y,
             width := b.bbox_w, height := b.bbox_h,
             content := b.text_translated.getD [], css_properties := [] }

/-- A healthy block whose typesetting succeeds. -/
def blockOk : Block := ⟨3, 0, 0, 10, 10, "src".toList, some "好".toList⟩

/-- C8: when typesetting one block raises, the driver's fallback path
itself raises - `create_css_for_chinese_text()` returns a CSS *string*,
and pydantic rejects it for the `Dict[str, str]` field `css_properties` -
so the whole page is aborted and even the healthy block's frame is lost,
contradicting the spec's "one bad block never aborts the page". -/
theorem c8_page_aborts :
    typesetPageBlocks mixedTypeset [blockOk, blockWithTranslation] =
      Except.error PyError.validationError := rfl

/-! ### Claim C2: style bounds -/

/-- C2 counterexample: the per-type default style for `"heading"` carries
`line-height: 1.3`, and 1.3 (= 13/10) is *below* the default config's
`min_line_height` = 1.45, so a heading frame styled by the default table
violates the claimed invariant. -/
theorem c2_counterexample :
    (get_default_css_for_block_type "heading").lookup "line-height" =
      some "1.3" ∧
    (1.3 : ℚ) < defaultFitLoopConfig.min_line_height := by
  exact ⟨by decide, by decide⟩

/-! ### Claim C3 counterexample -/

set_option maxRecDepth 40000 in
/-- C3 counterexample: on frame 100 x 40 with the 55-character content and
the mock oracle (whose height ignores the frame width, so the single line
never overflows vertically: 24 x 1.5 = 36 <= 40.8), the loop accepts at
once: `iterations = 1`, content unchanged, and the style still `normal` /
`normal` - against the claim's `iterations >= 4`, shortened content,
condensed stretch and weight "300". -/
theorem c3_counterexample :
    c3_result.iterations = 1 ∧ c3_result.final_content = c3_content ∧
    c3_result.css_properties.fontStretch = "normal" ∧
    c3_result.css_properties.fontWeight = "normal" := by decide


/-! ### Fit-loop invariants (helper lemmas) -/

theorem compressText_bounds (cfg : FitLoopConfig) (css : CssProps) (i : Nat)
    (css2 : CssProps) (h : CssInBounds cfg css)
    (heq : compressText cfg css i = some css2) : CssInBounds cfg css2 := by
  obtain ⟨h1, h2, h3, h4⟩ := h
  unfold compressText at heq
  split_ifs at heq <;> cases heq
  · exact ⟨h1, h2, le_max_left _ _, max_le (h3.trans h4) (by linarith)⟩
  · exact ⟨le_max_left _ _, max_le (h1.trans h2) (by linarith), h3, h4⟩
  · exact ⟨h1, h2, h3, h4⟩
  · exact ⟨h1, h2, h3, h4⟩

theorem expandText_bounds (cfg : FitLoopConfig) (css : CssProps) (i : Nat)
    (h : CssInBounds cfg css) : CssInBounds cfg (expandText cfg css i) := by
  obtain ⟨h1, h2, h3, h4⟩ := h
  unfold expandText
  split_ifs
  · exact ⟨le_min (h1.trans h2) (by linarith), min_le_left _ _, h3, h4⟩
  · exact ⟨h1, h2, h3, h4⟩
  · exact ⟨h1, h2, le_min (h3.trans h4) (by linarith), min_le_left _ _⟩
  · exact ⟨h1, h2, h3, h4⟩
  · exact ⟨h1, h2, h3, h4⟩

theorem fitAux_css_bounds (cfg : FitLoopConfig) (frame : FrameDims)
    (measure : MeasureFunc) (shorten : Option (Str → Str)) (original : Str)
    (hinit : CssInBounds cfg (initialCss cfg)) :
    ∀ (fuel i : Nat) (content : Str) (css : CssProps) (calls : Nat),
      CssInBounds cfg css →
      CssInBounds cfg
        (fitAux cfg frame measure shorten original fuel i content css
          calls).1.css_properties := by
  intro fuel
  induction fuel with
  | zero => intro i content css calls h; exact h
  | succ n ih =>
    intro i content css calls h
    simp only [fitAux]
    split
    · split
      · exact h
      · exact ih _ _ _ _ (expandText_bounds cfg css i h)
    · split
      next css2 heq => exact ih _ _ _ _ (compressText_bounds cfg css i css2 h heq)
      next heq =>
        rcases shorten with _ | f
        · exact h
        · simp only [Option.elim]
          split
          · split
            · exact ih _ _ _ _ hinit
            · exact h
          · exact h

theorem fitAux_calls_le (cfg : FitLoopConfig) (frame : FrameDims)
    (measure : MeasureFunc) (shorten : Option (Str → Str)) (original : Str) :
    ∀ (fuel i : Nat) (content : Str) (css : CssProps) (calls : Nat),
      (fitAux cfg frame measure shorten original fuel i content css
        calls).2.1 ≤ calls + fuel + 1 := by
  intro fuel
  induction fuel with
  | zero =>
    intro i content css calls
    exact show calls + 1 ≤ calls + 0 + 1 by omega
  | succ n ih =>
    intro i content css calls
    simp only [fitAux]
    split
    · split
      · exact show calls + 1 ≤ calls + (n + 1) + 1 by omega
      · exact (ih _ _ _ _).trans (by omega)
    · split
      next css2 heq => exact (ih _ _ _ _).trans (by omega)
      next heq =>
        rcases shorten with _ | f
        · exact show calls + 1 + 1 ≤ calls + (n + 1) + 1 by omega
        · simp only [Option.elim]
          split
          · split
            · exact (ih _ _ _ _).trans (by omega)
            · exact show calls + 1 + 1 ≤ calls + (n + 1) + 1 by omega
          · exact show calls + 1 + 1 ≤ calls + (n + 1) + 1 by omega

theorem fitAux_no_accept (cfg : FitLoopConfig) (frame : FrameDims)
    (measure : MeasureFunc) (shorten : Option (Str → Str)) (original : Str) :
    ∀ (fuel i : Nat) (content : Str) (css : CssProps) (calls : Nat),
      (fitAux cfg frame measure shorten original fuel i content css
        calls).2.2 = false →
      (fitAux cfg frame measure shorten original fuel i content css
        calls).1.iterations = 10 ∧
      (fitAux cfg frame measure shorten original fuel i content css
        calls).1.fits =
        decide ((fitAux cfg frame measure shorten original fuel i content css
          calls).1.overflow_ratio ≤ 1.1) := by
  intro fuel
  induction fuel with
  | zero => intro i content css calls _; exact ⟨rfl, rfl⟩
  | succ n ih =>
    intro i content css calls
    simp only [fitAux]
    split
    · split
      · intro hacc; simp at hacc
      · exact ih _ _ _ _
    · split
      next css2 heq => exact ih _ _ _ _
      next heq =>
        rcases shorten with _ | f
        · intro _; exact ⟨rfl, rfl⟩
        · simp only [Option.elim]
          split
          · split
            · exact ih _ _ _ _
            · intro _; exact ⟨rfl, rfl⟩
          · intro _; exact ⟨rfl, rfl⟩

theorem fitAux_height_nonpos (cfg : FitLoopConfig) (frame : FrameDims)
    (measure : MeasureFunc) (shorten : Option (Str → Str)) (original : Str)
    (hh : frame.height ≤ 0) (htol : (0 : ℚ) ≤ 1 + cfg.overflow_tolerance) :
    ∀ (fuel i : Nat) (content : Str) (css : CssProps) (calls : Nat),
      (fitAux cfg frame measure shorten original fuel i content css
        calls).1.fits = true ∧
      (fitAux cfg frame measure shorten original fuel i content css
        calls).1.overflow_ratio = 0 := by
  have hov : ∀ x, overflowOf frame x = 0 := fun x => by
    simp [overflowOf, not_lt.mpr hh]
  intro fuel
  induction fuel with
  | zero =>
    intro i content css calls
    simp only [fitAux, fitFinal, hov]
    exact ⟨by decide, by simp⟩
  | succ n ih =>
    intro i content css calls
    simp only [fitAux, hov]
    rw [if_pos htol]
    split
    · exact ⟨rfl, rfl⟩
    · exact ih _ _ _ _

theorem fitAux_width_nonpos (cfg : FitLoopConfig) (frame : FrameDims)
    (measure : MeasureFunc) (shorten : Option (Str → Str)) (original : Str)
    (hw : frame.width ≤ 0) :
    ∀ (fuel i : Nat) (content : Str) (css : CssProps) (calls : Nat),
      (fitAux cfg frame measure shorten original fuel i content css
        calls).1.density_ratio = 0 := by
  have hdn : ∀ x, densityOf frame x = 0 := fun x => by
    simp [densityOf, not_lt.mpr hw]
  intro fuel
  induction fuel with
  | zero =>
    intro i content css calls
    simp [fitAux, fitFinal, hdn]
  | succ n ih =>
    intro i content css calls
    simp only [fitAux, hdn]
    split
    · rw [if_neg (by norm_num : ¬ ((0 : ℚ) ≥ 0.4))]
      exact ih _ _ _ _
    · split
      next css2 heq => exact ih _ _ _ _
      next heq =>
        rcases shorten with _ | f
        · simp [fitFinal, hdn]
        · simp only [Option.elim]
          split
          · split
            · exact ih _ _ _ _
            · simp [fitFinal, hdn]
          · simp [fitFinal, hdn]

/-! ### Claim C2 (amended theorem and witness) -/

/-- C2 (amended): every style the fit loop returns satisfies the
configured bounds on line-height and letter-spacing - for any frame,
oracle, shortener and content - provided the initial values lie within
the bounds (the defaults do).  The per-type *default* styles do not
satisfy the invariant; see the counterexample. -/
theorem c2_fit_style_in_bounds (cfg : FitLoopConfig) (frame : FrameDims)
    (measure : MeasureFunc) (shorten : Option (Str → Str)) (content : Str)
    (h1 : cfg.min_line_height ≤ cfg.initial_line_height)
    (h2 : cfg.initial_line_height ≤ cfg.max_line_height)
    (h3 : cfg.min_letter_spacing ≤ cfg.initial_letter_spacing)
    (h4 : cfg.initial_letter_spacing ≤ cfg.max_letter_spacing) :
    CssInBounds cfg
      (fit_text_to_frame cfg frame measure shorten content).css_properties :=
  fitAux_css_bounds cfg frame measure shorten content ⟨h1, h2, h3, h4⟩ 10 0
    content (initialCss cfg) 0 ⟨h1, h2, h3, h4⟩

/-- C2 witness: the bounds hold on a concrete run with the default
config. -/
theorem c2_witness :
    CssInBounds defaultFitLoopConfig
      (fit_text_to_frame defaultFitLoopConfig ⟨200, 100⟩ (mockMeasure 16 24)
        none "中文测试".toList).css_properties :=
  c2_fit_style_in_bounds _ _ _ _ _ (by decide) (by decide) (by decide)
    (by decide)

/-! ### Claim C9 -/

/-- C9: the fit loop always terminates, making at most `max_iterations + 1
= 11` measurement calls (one per loop iteration plus the final
re-measure); whenever the loop ends without accepting, the returned
result has `iterations = 10` and `fits` decided by
`overflow_ratio <= 1.1`. -/
theorem c9_measure_budget (cfg : FitLoopConfig) (frame : FrameDims)
    (measure : MeasureFunc) (shorten : Option (Str → Str)) (content : Str) :
    (fitRun cfg frame measure shorten content).2.1 ≤ 11 ∧
    ((fitRun cfg frame measure shorten content).2.2 = false →
      (fit_text_to_frame cfg frame measure shorten content).iterations = 10 ∧
      (fit_text_to_frame cfg frame measure shorten content).fits =
        decide
          ((fit_text_to_frame cfg frame measure shorten
            content).overflow_ratio ≤ 1.1)) :=
  ⟨fitAux_calls_le cfg frame measure shorten content 10 0 content
      (initialCss cfg) 0,
   fitAux_no_accept cfg frame measure shorten content 10 0 content
      (initialCss cfg) 0⟩

set_option maxRecDepth 40000 in
/-- C9 witness: a concrete never-accepting run (frame 1000 x 1 keeps the
overflow check failing until every rung is spent) makes at most 11 oracle
calls and returns `iterations = 10` with `fits` given by the 1.1 rule. -/
theorem c9_witness :
    (fitRun defaultFitLoopConfig ⟨1000, 1⟩ (mockMeasure 16 24) none
      c3_content).2.1 ≤ 11 ∧
    (fit_text_to_frame defaultFitLoopConfig ⟨1000, 1⟩ (mockMeasure 16 24) none
      c3_content).iterations = 10 ∧
    (fit_text_to_frame defaultFitLoopConfig ⟨1000, 1⟩ (mockMeasure 16 24) none
      c3_content).fits =
      decide
        ((fit_text_to_frame defaultFitLoopConfig ⟨1000, 1⟩ (mockMeasure 16 24)
          none c3_content).overflow_ratio ≤ 1.1) :=
  ⟨(c9_measure_budget defaultFitLoopConfig ⟨1000, 1⟩ (mockMeasure 16 24) none
      c3_content).1,
   (c9_measure_budget defaultFitLoopConfig ⟨1000, 1⟩ (mockMeasure 16 24) none
      c3_content).2 (by decide)⟩

/-! ### Claim C10 -/

/-- C10: with the default config, a frame of non-positive height makes the
guarded ratio `overflow_ratio = 0` at every iteration (so the overflow
check always passes) and the result has `fits = true`; a frame of
non-positive width makes `density_ratio = 0`.  No division by zero is
possible: the guards return 0 instead, and a `FitResult` is always
returned. -/
theorem c10_degenerate_frames (frame : FrameDims) (measure : MeasureFunc)
    (shorten : Option (Str → Str)) (content : Str) :
    (frame.height ≤ 0 →
      (fit_text_to_frame defaultFitLoopConfig frame measure shorten
        content).fits = true ∧
      (fit_text_to_frame defaultFitLoopConfig frame measure shorten
        content).overflow_ratio = 0) ∧
    (frame.width ≤ 0 →
      (fit_text_to_frame defaultFitLoopConfig frame measure shorten
        content).density_ratio = 0) := by
  constructor
  · intro hh
    exact fitAux_height_nonpos defaultFitLoopConfig frame measure shorten
      content hh (by decide) 10 0 content (initialCss defaultFitLoopConfig) 0
  · intro hw
    exact fitAux_width_nonpos defaultFitLoopConfig frame measure shorten
      content hw 10 0 content (initialCss defaultFitLoopConfig) 0

/-- C10 witness: concrete degenerate frames. -/
theorem c10_witness :
    (fit_text_to_frame defaultFitLoopConfig ⟨100, 0⟩ (mockMeasure 16 24) none
      "中文测试".toList).fits = true ∧
    (fit_text_to_frame defaultFitLoopConfig ⟨100, 0⟩ (mockMeasure 16 24) none
      "中文测试".toList).overflow_ratio = 0 ∧
    (fit_text_to_frame defaultFitLoopConfig ⟨0, 100⟩ (mockMeasure 16 24) none
      "中文测试".toList).density_ratio = 0 :=
  ⟨((c10_degenerate_frames ⟨100, 0⟩ (mockMeasure 16 24) none
      "中文测试".toList).1 (by decide)).1,
   ((c10_degenerate_frames ⟨100, 0⟩ (mockMeasure 16 24) none
      "中文测试".toList).1 (by decide)).2,
   (c10_degenerate_frames ⟨0, 100⟩ (mockMeasure 16 24) none
      "中文测试".toList).2 (by decide)⟩

/-! ### Claim C3 (amended theorem and witness) -/

set_option maxRecDepth 40000 in
/-- C3 (amended): on the concrete scenario the loop accepts immediately
(`fits = true`, `iterations = 1`, content and style unchanged - the mock
oracle's height ignores the frame width, so the single line never
overflows and no rung or shortening ever fires).  The decision rule the
claim also states does hold in general: at any iteration `i` where the
overflow check fails, no compression rung fires, a shortener is provided,
`i < 3`, and `shorten(original)` is strictly shorter than the current
content, the loop replaces the content, resets the style to the initial
one and continues. -/
theorem c3_scenario_and_shortening :
    (c3_result =
      { fits := true, overflow_ratio := 9/10, density_ratio := 44/5,
        css_properties := initialCss defaultFitLoopConfig, iterations := 1,
        final_content := c3_content }) ∧
    (∀ (cfg : FitLoopConfig) (frame : FrameDims) (measure : MeasureFunc)
        (shortenF : Str → Str) (original : Str) (fuel i : Nat)
        (content : Str) (css : CssProps) (calls : Nat),
      ¬ overflowOf frame (measure content css).2 ≤
          1 + cfg.overflow_tolerance →
      compressText cfg css i = none →
      i < 3 →
      (shortenF original).length < content.length →
      fitAux cfg frame measure (some shortenF) original (fuel + 1) i content
          css calls =
        fitAux cfg frame measure (some shortenF) original fuel (i + 1)
          (shortenF original) (initialCss cfg) (calls + 1)) := by
  constructor
  · decide
  · intro cfg frame measure shortenF original fuel i content css calls hov
      hcomp hi hlen
    simp only [fitAux]
    rw [if_neg hov, hcomp]
    simp only [Option.elim]
    rw [if_pos hi, if_pos hlen]

/-- C3 witness for the decision-rule part: a concrete state at iteration 2
with `font-stretch` already condensed (so that rung cannot fire), an
overflowing measurement, and a strictly shortening shortener. -/
theorem c3_witness :
    fitAux defaultFitLoopConfig ⟨100, 40⟩ (fun _ _ => (0, 100))
      (some fun _ => []) "ab".toList 4 2 "ab".toList
      ⟨3/2, 0, "normal", "condensed"⟩ 0 =
      fitAux defaultFitLoopConfig ⟨100, 40⟩ (fun _ _ => (0, 100))
        (some fun _ => []) "ab".toList 3 3 [] (initialCss defaultFitLoopConfig)
        1 :=
  c3_scenario_and_shortening.2 defaultFitLoopConfig ⟨100, 40⟩
    (fun _ _ => (0, 100)) (fun _ => []) "ab".toList 3 2 "ab".toList
    ⟨3/2, 0, "normal", "condensed"⟩ 0 (by decide) (by decide) (by decide)
    (by decide)


/-! ### Claim C5: measurement monotonicity -/

theorem cjk_not_ascii (c : Char) (h : is_cjk_character c = true) :
    is_ascii_char c = false := by
  simp only [is_cjk_character, decide_eq_true_eq] at h
  simp only [is_ascii_char, decide_eq_false_iff_not]
  omega

theorem countP_cjk_ascii_le (l : Str) :
    l.countP is_cjk_character + l.countP is_ascii_char ≤ l.length := by
  induction l with
  | nil => simp
  | cons c cs ih =>
    simp only [List.countP_cons, List.length_cons]
    by_cases hc : is_cjk_character c = true
    · have ha := cjk_not_ascii c hc
      simp [hc, ha]
      omega
    · have hc' : is_cjk_character c = false := by
        cases h : is_cjk_character c
        · rfl
        · exact absurd h hc
      cases ha : is_ascii_char c <;> simp [hc', ha] <;> omega

theorem estimate_text_width_append_le (t r : Str) (fs ratio : ℚ)
    (hfs : 0 ≤ fs) (hratio : 0 ≤ ratio) :
    estimate_text_width t fs ratio ≤ estimate_text_width (t ++ r) fs ratio := by
  have hdis := countP_cjk_ascii_le r
  simp only [estimate_text_width, count_characters, List.countP_append,
    List.length_append]
  push_cast
  have h1 : (0 : ℚ) ≤ (r.countP is_cjk_character : ℚ) * fs * ratio := by
    positivity
  have h2 : (0 : ℚ) ≤ (r.countP is_ascii_char : ℚ) * fs * (0.55 : ℚ) := by
    positivity
  have h3 : (0 : ℚ) ≤
      ((r.length : ℚ) - (r.countP is_cjk_character : ℚ) -
        (r.countP is_ascii_char : ℚ)) * fs * (0.6 : ℚ) := by
    have hc : (r.countP is_cjk_character : ℚ) + (r.countP is_ascii_char : ℚ) ≤
        (r.length : ℚ) := by exact_mod_cast hdis
    have hnn : (0 : ℚ) ≤ (r.length : ℚ) - (r.countP is_cjk_character : ℚ) -
        (r.countP is_ascii_char : ℚ) := by linarith
    have : (0 : ℚ) ≤ (0.6 : ℚ) := by norm_num
    exact mul_nonneg (mul_nonneg hnn hfs) this
  nlinarith [h1, h2, h3]

theorem splitOnNl_ne_nil (l : Str) : splitOnNl l ≠ [] := by
  cases l with
  | nil => simp [splitOnNl]
  | cons c cs =>
    simp only [splitOnNl]
    split
    · simp
    · split <;> simp

theorem pyStrip_nil_iff (l : Str) :
    pyStrip l = [] ↔ ∀ c ∈ l, isPySpace c = true := by
  unfold pyStrip
  rw [List.reverse_eq_nil_iff, List.dropWhile_eq_nil_iff]
  constructor
  · intro h c hc
    have hmem : c ∈ l.takeWhile isPySpace ++ l.dropWhile isPySpace := by
      rw [List.takeWhile_append_dropWhile]; exact hc
    rcases List.mem_append.1 hmem with h1 | h2
    · exact List.mem_takeWhile_imp h1
    · exact h c (List.mem_reverse.2 h2)
  · intro h x hx
    exact h x ((List.dropWhile_sublist _).subset (List.mem_reverse.1 hx))

theorem not_strip_isEmpty (l : Str) :
    (!(pyStrip l).isEmpty) = lineKept l := by
  by_cases h : pyStrip l = []
  · have hall := (pyStrip_nil_iff l).1 h
    have hk : lineKept l = false := by
      simp only [lineKept, List.any_eq_false]
      intro x hx
      simp [hall x hx]
    simp [h, hk]
  · have hk : lineKept l = true := by
      by_contra hkne
      apply h
      apply (pyStrip_nil_iff l).2
      intro c hc
      by_contra hcs
      exact hkne (by
        simp only [lineKept, List.any_eq_true]
        exact ⟨c, hc, by simpa using hcs⟩)
    have hne : (pyStrip l).isEmpty = false := by
      cases he : (pyStrip l).isEmpty
      · rfl
      · exact absurd (List.isEmpty_iff.1 he) h
    simp [hne, hk]

theorem countNW_split (l : Str) : countNW l = (headNW l).toNat + tailNW l := by
  obtain ⟨h, t, he⟩ := List.exists_cons_of_ne_nil (splitOnNl_ne_nil l)
  simp only [countNW, headNW, tailNW, he, List.countP_cons, List.headD_cons,
    List.tail_cons]
  cases hk : lineKept h
  · simp [hk, Bool.toNat]
  · simp [hk, Bool.toNat]
    omega

theorem nelAux_eq (l : Str) :
    ∀ (cur : Bool) (acc : Nat),
      nelAux cur acc l = acc + (cur || headNW l).toNat + tailNW l := by
  induction l with
  | nil =>
    intro cur acc
    simp [nelAux, headNW, tailNW, splitOnNl, lineKept]
  | cons c cs ih =>
    intro cur acc
    by_cases hc : c = '\n'
    · subst hc
      have hs : splitOnNl ('\n' :: cs) = [] :: splitOnNl cs := by
        simp [splitOnNl]
      have h1 : nelAux cur acc ('\n' :: cs) = nelAux false (acc + cur.toNat) cs := by
        simp [nelAux]
      rw [h1, ih]
      have h2 : (splitOnNl cs).countP lineKept = countNW cs := rfl
      simp only [headNW, tailNW, hs, List.headD_cons, List.tail_cons, lineKept,
        List.any_nil, Bool.or_false, Bool.false_or, h2, countNW_split cs]
      omega
    · obtain ⟨h, t, he⟩ := List.exists_cons_of_ne_nil (splitOnNl_ne_nil cs)
      have hs : splitOnNl (c :: cs) = (c :: h) :: t := by
        simp [splitOnNl, hc, he]
      have h1 : nelAux cur acc (c :: cs) =
          nelAux (cur || !(isPySpace c)) acc cs := by
        simp [nelAux, hc]
      rw [h1, ih]
      simp only [headNW, tailNW, hs, he, List.headD_cons, List.tail_cons,
        lineKept, List.any_cons, Bool.or_assoc]

theorem nelAux_base_le (l : Str) :
    ∀ (cur : Bool) (acc : Nat), acc + cur.toNat ≤ nelAux cur acc l := by
  induction l with
  | nil => intro cur acc; simp [nelAux]
  | cons c cs ih =>
    intro cur acc
    by_cases hc : c = '\n'
    · subst hc
      have h1 : nelAux cur acc ('\n' :: cs) =
          nelAux false (acc + cur.toNat) cs := by simp [nelAux]
      rw [h1]
      have h2 := ih false (acc + cur.toNat)
      simp only [Bool.toNat_false] at h2
      omega
    · simp only [nelAux, if_neg hc]
      have h1 := ih (cur || !(isPySpace c)) acc
      have h2 : cur.toNat ≤ (cur || !(isPySpace c)).toNat := by
        cases cur <;> simp [Bool.toNat]
      omega

theorem nelAux_append (t : Str) :
    ∀ (r : Str) (cur : Bool) (acc : Nat),
      nelAux cur acc t ≤ nelAux cur acc (t ++ r) := by
  induction t with
  | nil =>
    intro r cur acc
    simpa [nelAux] using nelAux_base_le r cur acc
  | cons c cs ih =>
    intro r cur acc
    by_cases hc : c = '\n'
    · subst hc
      simp only [List.cons_append, nelAux, if_pos rfl]
      exact ih r false _
    · simp only [List.cons_append, nelAux, if_neg hc]
      exact ih r _ _

theorem countNW_eq_nelAux (l : Str) : countNW l = nelAux false 0 l := by
  rw [nelAux_eq l false 0, countNW_split l]
  simp

theorem countNW_mono (t r : Str) : countNW t ≤ countNW (t ++ r) := by
  rw [countNW_eq_nelAux, countNW_eq_nelAux]
  exact nelAux_append t r false 0

theorem countP_strip_eq (ls : List Str) :
    ls.countP (fun line => !(pyStrip line).isEmpty) = ls.countP lineKept := by
  induction ls with
  | nil => rfl
  | cons a as ih => simp [List.countP_cons, ih, not_strip_isEmpty a]

/-- C5 (amended): the reference oracle is monotone when the shorter string
is a *prefix* of the longer one (exactly the shape the shortener produces:
`text[:k]`): both measured width and measured height of `t` are no larger
than those of `t ++ r`, for any style whose letter-spacing is >= -1em and
whose line-height is non-negative.  For arbitrary shorter strings the
claim is false - see the counterexample. -/
theorem c5_prefix_monotone (t r : Str) (css : CssProps)
    (hls : 0 ≤ 1 + css.letterSpacing) (hlh : 0 ≤ css.lineHeight) :
    (measure_text t css).1 ≤ (measure_text (t ++ r) css).1 ∧
    (measure_text t css).2 ≤ (measure_text (t ++ r) css).2 := by
  have hne1 : (splitOnNl t).isEmpty = false := by
    cases he : (splitOnNl t).isEmpty
    · rfl
    · exact absurd (List.isEmpty_iff.1 he) (splitOnNl_ne_nil t)
  have hne2 : (splitOnNl (t ++ r)).isEmpty = false := by
    cases he : (splitOnNl (t ++ r)).isEmpty
    · rfl
    · exact absurd (List.isEmpty_iff.1 he) (splitOnNl_ne_nil (t ++ r))
  simp only [measure_text, hne1, hne2, Bool.false_eq_true, if_false]
  constructor
  · exact estimate_text_width_append_le t r 16 (1 + css.letterSpacing)
      (by norm_num) hls
  · have hcount : (splitOnNl t).countP (fun line => !(pyStrip line).isEmpty) ≤
        (splitOnNl (t ++ r)).countP (fun line => !(pyStrip line).isEmpty) := by
      rw [countP_strip_eq, countP_strip_eq]
      exact countNW_mono t r
    have hcast : ((splitOnNl t).countP
          (fun line => !(pyStrip line).isEmpty) : ℚ) ≤
        ((splitOnNl (t ++ r)).countP
          (fun line => !(pyStrip line).isEmpty) : ℚ) :=
      Nat.cast_le.2 hcount
    have h16 : ((splitOnNl t).countP
          (fun line => !(pyStrip line).isEmpty) : ℚ) * 16 ≤
        ((splitOnNl (t ++ r)).countP
          (fun line => !(pyStrip line).isEmpty) : ℚ) * 16 := by
      linarith
    exact mul_le_mul_of_nonneg_right h16 hlh

/-- C5 counterexample: `"中中中"` is strictly shorter than `"aaaa"` yet
measures strictly wider under the reference oracle with the initial style
(48 px against 35.2 px), so shortening the content can increase the
measured width. -/
theorem c5_counterexample :
    ("中中中".toList.length < "aaaa".toList.length) ∧
    (measure_text "aaaa".toList (initialCss defaultFitLoopConfig)).1 <
      (measure_text "中中中".toList (initialCss defaultFitLoopConfig)).1 := by
  refine ⟨by decide, by decide⟩

/-- C5 witness: the prefix-monotonicity theorem at a concrete prefix pair
and the initial style. -/
theorem c5_witness :
    (measure_text "a".toList (initialCss defaultFitLoopConfig)).1 ≤
      (measure_text ("a".toList ++ "b".toList)
        (initialCss defaultFitLoopConfig)).1 ∧
    (measure_text "a".toList (initialCss defaultFitLoopConfig)).2 ≤
      (measure_text ("a".toList ++ "b".toList)
        (initialCss defaultFitLoopConfig)).2 :=
  c5_prefix_monotone "a".toList "b".toList (initialCss defaultFitLoopConfig)
    (by decide) (by decide)

end GPTrans
